import Mathlib

set_option autoImplicit false

/- Shallow embedding of the go-playground user service, translated from the
   cached variant of the source (the file registering /users, /user,
   /user/update, /user/delete and the Redis string/list/hash routes).

   Machine model:
   - The MySQL `users` table is a list of rows in natural (insertion) order
     together with the AUTO_INCREMENT counter, which starts at 1.
   - Redis is an association list from string keys to typed values; a string
     value carries its TTL in seconds as metadata.  The passage of time is not
     modelled: an entry is live exactly while present.  TTL 0 means "no
     expiry" (the generic set-string handler passes 0 to rdb.Set).
   - Fallible adapter calls (store query/exec, row scan, JSON marshal, cache
     get/set) are given injectable faults through a `Faults` record; a `none`
     first component models Go's non-nil error.  Error message strings are
     abstracted to fixed constants.
   - Every adapter call bumps an access counter in the state, so "no store
     access / no cache access" claims are visible in the model.
-/

structure User where
  id : Nat
  username : String
  email : String
deriving DecidableEq

/- json.Marshal escaping of the characters that need it in ordinary field
   strings (quote and backslash; control characters are not modelled). -/
def jsonEscapeChar (c : Char) : String :=
  if c = '"' then "\\\"" else if c = '\\' then "\\\\" else String.singleton c

def jsonEscape (s : String) : String :=
  String.join (s.data.map jsonEscapeChar)

def marshalUser (u : User) : String :=
  "\x7b\"id\":" ++ toString u.id ++ ",\"username\":\"" ++ jsonEscape u.username ++
    "\",\"email\":\"" ++ jsonEscape u.email ++ "\"\x7d"

/- json.Marshal of the handlers' `[]User` slice.  The slice starts as
   `var users []User` (nil) and only becomes non-nil when a row is appended,
   so an empty collection marshals to "null", not "[]". -/
def marshalUsers : List User → String
  | [] => "null"
  | us => "[" ++ String.intercalate "," (us.map marshalUser) ++ "]"

inductive CacheVal where
  | str (value : String) (ttl : Nat)
  | list (items : List String)
  | hash (fields : List (String × String))
deriving DecidableEq

def assocLookup {α : Type} (k : String) : List (String × α) → Option α
  | [] => none
  | (k', v) :: rest => if k' = k then some v else assocLookup k rest

def assocInsert {α : Type} (k : String) (v : α) : List (String × α) → List (String × α)
  | [] => [(k, v)]
  | (k', v') :: rest => if k' = k then (k, v) :: rest else (k', v') :: assocInsert k v rest

structure SysState where
  rows : List User
  nextId : Nat
  cache : List (String × CacheVal)
  storeQueryCount : Nat
  storeExecCount : Nat
  cacheGetCount : Nat
  cacheSetCount : Nat
deriving DecidableEq

def initState : SysState :=
  { rows := [], nextId := 1, cache := [],
    storeQueryCount := 0, storeExecCount := 0, cacheGetCount := 0, cacheSetCount := 0 }

structure Faults where
  storeQueryFails : Bool
  storeExecFails : Bool
  scanFails : Bool
  marshalFails : Bool
  cacheGetFails : Bool
  cacheSetFails : Bool
deriving DecidableEq

def noFaults : Faults :=
  { storeQueryFails := false, storeExecFails := false, scanFails := false,
    marshalFails := false, cacheGetFails := false, cacheSetFails := false }

/- Store adapter: db.Query("SELECT id, username, email FROM users;"). -/
def storeQueryAll (f : Faults) (s : SysState) : Option (List User) × SysState :=
  let s1 := { s with storeQueryCount := s.storeQueryCount + 1 }
  if f.storeQueryFails then (none, s1) else (some s.rows, s1)

/- db.Exec("INSERT INTO users (username, email) VALUES (?, ?)", ...). -/
def storeInsert (f : Faults) (username email : String) (s : SysState) : Option Unit × SysState :=
  let s1 := { s with storeExecCount := s.storeExecCount + 1 }
  if f.storeExecFails then (none, s1)
  else (some (), { s1 with
    rows := s1.rows ++ [{ id := s1.nextId, username := username, email := email }],
    nextId := s1.nextId + 1 })

/- db.Exec("UPDATE users SET email = ? WHERE username = ?", ...). -/
def storeUpdateEmail (f : Faults) (username email : String) (s : SysState) : Option Unit × SysState :=
  let s1 := { s with storeExecCount := s.storeExecCount + 1 }
  if f.storeExecFails then (none, s1)
  else (some (), { s1 with
    rows := s1.rows.map fun r => if r.username = username then { r with email := email } else r })

/- db.Exec("DELETE FROM users WHERE username = ?", ...); zero affected rows
   is not an error. -/
def storeDelete (f : Faults) (username : String) (s : SysState) : Option Unit × SysState :=
  let s1 := { s with storeExecCount := s.storeExecCount + 1 }
  if f.storeExecFails then (none, s1)
  else (some (), { s1 with rows := s1.rows.filter fun r => r.username != username })

/- rdb.Get(ctx, k).Result(): err == nil only when the key holds a live string
   value (a missing key yields redis.Nil, a wrong-typed key WRONGTYPE). -/
def cacheGet (f : Faults) (k : String) (s : SysState) : Option String × SysState :=
  let s1 := { s with cacheGetCount := s.cacheGetCount + 1 }
  if f.cacheGetFails then (none, s1)
  else
    match assocLookup k s.cache with
    | some (CacheVal.str v _) => (some v, s1)
    | _ => (none, s1)

/- rdb.Set(ctx, k, v, ttl).Err(): overwrites any previous value at k. -/
def cacheSet (f : Faults) (k v : String) (ttl : Nat) (s : SysState) : Option Unit × SysState :=
  let s1 := { s with cacheSetCount := s.cacheSetCount + 1 }
  if f.cacheSetFails then (none, s1)
  else (some (), { s1 with cache := assocInsert k (CacheVal.str v ttl) s1.cache })

/- rdb.RPush(ctx, k, vs).Err(): appends; creates the list if absent; errors
   (WRONGTYPE) when k holds a non-list value. -/
def cachePush (f : Faults) (k : String) (vs : List String) (s : SysState) : Option Unit × SysState :=
  let s1 := { s with cacheSetCount := s.cacheSetCount + 1 }
  if f.cacheSetFails then (none, s1)
  else
    match assocLookup k s.cache with
    | none => (some (), { s1 with cache := assocInsert k (CacheVal.list vs) s1.cache })
    | some (CacheVal.list xs) =>
        (some (), { s1 with cache := assocInsert k (CacheVal.list (xs ++ vs)) s1.cache })
    | some _ => (none, s1)

/- rdb.LRange(ctx, k, 0, -1).Result(): an absent key is an empty list. -/
def cacheLRange (f : Faults) (k : String) (s : SysState) : Option (List String) × SysState :=
  let s1 := { s with cacheGetCount := s.cacheGetCount + 1 }
  if f.cacheGetFails then (none, s1)
  else
    match assocLookup k s.cache with
    | none => (some [], s1)
    | some (CacheVal.list xs) => (some xs, s1)
    | some _ => (none, s1)

/- rdb.HSet(ctx, k, field, v).Err(). -/
def cacheHSet (f : Faults) (k fld v : String) (s : SysState) : Option Unit × SysState :=
  let s1 := { s with cacheSetCount := s.cacheSetCount + 1 }
  if f.cacheSetFails then (none, s1)
  else
    match assocLookup k s.cache with
    | none => (some (), { s1 with cache := assocInsert k (CacheVal.hash [(fld, v)]) s1.cache })
    | some (CacheVal.hash h) =>
        (some (), { s1 with cache := assocInsert k (CacheVal.hash (assocInsert fld v h)) s1.cache })
    | some _ => (none, s1)

/- rdb.HGet(ctx, k, field).Result(): missing key or field yields redis.Nil. -/
def cacheHGet (f : Faults) (k fld : String) (s : SysState) : Option String × SysState :=
  let s1 := { s with cacheGetCount := s.cacheGetCount + 1 }
  if f.cacheGetFails then (none, s1)
  else
    match assocLookup k s.cache with
    | some (CacheVal.hash h) =>
        (match assocLookup fld h with
         | some v => (some v, s1)
         | none => (none, s1))
    | _ => (none, s1)

structure Response where
  status : Nat
  contentType : Option String
  body : String
deriving DecidableEq

/- http.Error sets a text/plain content type and appends a newline. -/
def errResp (status : Nat) (msg : String) : Response :=
  { status := status, contentType := some "text/plain; charset=utf-8", body := msg ++ "\n" }

def jsonOK (body : String) : Response :=
  { status := 200, contentType := some "application/json", body := body }

def storeQueryErrMsg : String := "store query error"
def storeExecErrMsg : String := "store exec error"
def scanErrMsg : String := "row scan error"
def marshalErrMsg : String := "json marshal error"
def cacheSetErrMsg : String := "cache set error"
def cacheGetErrMsg : String := "cache get error"
def decodeErrMsg : String := "body decode error"

/- getUsers handler.  The TTL on the repopulation path is 2*time.Minute. -/
def getUsers (f : Faults) (s : SysState) : Response × SysState :=
  match cacheGet f "users" s with
  | (some usersJSON, s1) => (jsonOK usersJSON, s1)
  | (none, s1) =>
    match storeQueryAll f s1 with
    | (none, s2) => (errResp 500 storeQueryErrMsg, s2)
    | (some rows, s2) =>
      if f.scanFails && !rows.isEmpty then (errResp 500 scanErrMsg, s2)
      else if f.marshalFails then (errResp 500 marshalErrMsg, s2)
      else
        let usersJSONRes := marshalUsers rows
        match cacheSet f "users" usersJSONRes 120 s2 with
        | (none, s3) => (errResp 500 cacheSetErrMsg, s3)
        | (some _, s3) => (jsonOK usersJSONRes, s3)

/- updateCache: re-query the store, marshal, overwrite the "users" entry with
   a 5*time.Minute TTL; every failure is logged and swallowed (the function
   returns without reporting to the caller). -/
def updateCache (f : Faults) (s : SysState) : SysState :=
  match storeQueryAll f s with
  | (none, s1) => s1
  | (some rows, s1) =>
    if f.scanFails && !rows.isEmpty then s1
    else if f.marshalFails then s1
    else (cacheSet f "users" (marshalUsers rows) 300 s1).2

/- createUser handler.  `body` is the result of json.NewDecoder(...).Decode:
   `none` models a decode error; note that a JSON object with absent fields
   decodes successfully to zero-valued strings. -/
def createUser (f : Faults) (body : Option User) (s : SysState) : Response × SysState :=
  match body with
  | none => (errResp 400 decodeErrMsg, s)
  | some user =>
    match storeInsert f user.username user.email s with
    | (none, s1) => (errResp 500 storeExecErrMsg, s1)
    | (some _, s1) =>
        ({ status := 201, contentType := none, body := "" }, updateCache f s1)

def updateUser (f : Faults) (body : Option User) (s : SysState) : Response × SysState :=
  match body with
  | none => (errResp 400 decodeErrMsg, s)
  | some user =>
    match storeUpdateEmail f user.username user.email s with
    | (none, s1) => (errResp 500 storeExecErrMsg, s1)
    | (some _, s1) =>
        ({ status := 200, contentType := none, body := "" }, updateCache f s1)

/- deleteUser handler.  `username` is r.URL.Query().Get("username"), which is
   "" when the parameter is missing. -/
def deleteUser (f : Faults) (username : String) (s : SysState) : Response × SysState :=
  if username = "" then (errResp 400 "Missing username parameter", s)
  else
    match storeDelete f username s with
    | (none, s1) => (errResp 500 storeExecErrMsg, s1)
    | (some _, s1) =>
        ({ status := 200, contentType := none, body := "" }, updateCache f s1)

/- Generic key/value passthrough handlers. -/
def setString (f : Faults) (key value : String) (s : SysState) : Response × SysState :=
  if key = "" || value = "" then (errResp 400 "Missing key or value parameters", s)
  else
    match cacheSet f key value 0 s with
    | (none, s1) => (errResp 500 cacheSetErrMsg, s1)
    | (some _, s1) => ({ status := 200, contentType := none, body := "" }, s1)

def getString (f : Faults) (key : String) (s : SysState) : Response × SysState :=
  if key = "" then (errResp 400 "Missing key parameter", s)
  else
    match cacheGet f key s with
    | (none, s1) => (errResp 500 cacheGetErrMsg, s1)
    | (some val, s1) =>
        ({ status := 200, contentType := none,
           body := "Value for key " ++ key ++ ": " ++ val ++ "\n" }, s1)

def setList (f : Faults) (key : String) (values : List String) (s : SysState) : Response × SysState :=
  if key = "" || values.isEmpty then (errResp 400 "Missing key or value parameters", s)
  else
    match cachePush f key values s with
    | (none, s1) => (errResp 500 cacheSetErrMsg, s1)
    | (some _, s1) => ({ status := 200, contentType := none, body := "" }, s1)

def getList (f : Faults) (key : String) (s : SysState) : Response × SysState :=
  if key = "" then (errResp 400 "Missing key parameter", s)
  else
    match cacheLRange f key s with
    | (none, s1) => (errResp 500 cacheGetErrMsg, s1)
    | (some vals, s1) =>
        ({ status := 200, contentType := none,
           body := "Values for key " ++ key ++ ": [" ++ String.intercalate " " vals ++ "]\n" }, s1)

def setHash (f : Faults) (key fld value : String) (s : SysState) : Response × SysState :=
  if key = "" || fld = "" || value = "" then
    (errResp 400 "Missing key, field, or value parameters", s)
  else
    match cacheHSet f key fld value s with
    | (none, s1) => (errResp 500 cacheSetErrMsg, s1)
    | (some _, s1) => ({ status := 200, contentType := none, body := "" }, s1)

def getHash (f : Faults) (key fld : String) (s : SysState) : Response × SysState :=
  if key = "" || fld = "" then (errResp 400 "Missing key or field parameter", s)
  else
    match cacheHGet f key fld s with
    | (none, s1) => (errResp 500 cacheGetErrMsg, s1)
    | (some val, s1) =>
        ({ status := 200, contentType := none,
           body := "Value for field " ++ fld ++ " in key " ++ key ++ ": " ++ val ++ "\n" }, s1)

theorem assocLookup_insert_same {α : Type} (k : String) (v : α) (l : List (String × α)) :
    assocLookup k (assocInsert k v l) = some v := by
  induction l with
  | nil => simp [assocLookup, assocInsert]
  | cons p rest ih =>
    obtain ⟨k', v'⟩ := p
    by_cases h : k' = k
    · simp [assocLookup, assocInsert, h]
    · simp [assocLookup, assocInsert, h, ih]

theorem assocLookup_insert_other {α : Type} (k k2 : String) (v : α) (l : List (String × α))
    (h : k ≠ k2) : assocLookup k2 (assocInsert k v l) = assocLookup k2 l := by
  induction l with
  | nil => simp [assocLookup, assocInsert, h]
  | cons p rest ih =>
    obtain ⟨k', v'⟩ := p
    by_cases hk : k' = k
    · subst hk
      simp [assocLookup, assocInsert, h]
    · simp only [assocInsert, if_neg hk]
      by_cases hk2 : k' = k2
      · simp [assocLookup, hk2]
      · simp [assocLookup, hk2, ih]

/- Sanity checks of the embedding on the spec's concrete scenario. -/
example :
    (createUser noFaults (some { id := 0, username := "ann", email := "a@x.com" }) initState).1.status
      = 201 := by decide

example :
    (getUsers noFaults
      (createUser noFaults (some { id := 0, username := "ann", email := "a@x.com" }) initState).2).1.body
      = "[\x7b\"id\":1,\"username\":\"ann\",\"email\":\"a@x.com\"\x7d]" := by decide

/- Helper lemmas about the adapters and the write-path refresh. -/

theorem cacheGet_snd (f : Faults) (k : String) (s : SysState) :
    (cacheGet f k s).2 = { s with cacheGetCount := s.cacheGetCount + 1 } := by
  unfold cacheGet
  by_cases h : f.cacheGetFails
  · simp [h]
  · simp only [Bool.not_eq_true] at h
    simp only [h, Bool.false_eq_true, if_false]
    cases hl : assocLookup k s.cache with
    | none => rfl
    | some v => cases v <;> rfl

theorem getUsers_hit (f : Faults) (s : SysState) (payload : String) (ttl : Nat)
    (hcg : f.cacheGetFails = false)
    (hhit : assocLookup "users" s.cache = some (CacheVal.str payload ttl)) :
    getUsers f s = (jsonOK payload, { s with cacheGetCount := s.cacheGetCount + 1 }) := by
  unfold getUsers
  simp [cacheGet, hcg, hhit]

theorem getUsers_miss (f : Faults) (s : SysState)
    (hq : f.storeQueryFails = false) (hsc : f.scanFails = false) (hm : f.marshalFails = false)
    (hmiss : (cacheGet f "users" s).1 = none) :
    getUsers f s =
      if f.cacheSetFails then
        (errResp 500 cacheSetErrMsg,
         { s with cacheGetCount := s.cacheGetCount + 1,
                  storeQueryCount := s.storeQueryCount + 1,
                  cacheSetCount := s.cacheSetCount + 1 })
      else
        (jsonOK (marshalUsers s.rows),
         { s with cacheGetCount := s.cacheGetCount + 1,
                  storeQueryCount := s.storeQueryCount + 1,
                  cacheSetCount := s.cacheSetCount + 1,
                  cache := assocInsert "users" (CacheVal.str (marshalUsers s.rows) 120) s.cache }) := by
  have hpair : cacheGet f "users" s = (none, { s with cacheGetCount := s.cacheGetCount + 1 }) := by
    rw [← hmiss, ← cacheGet_snd f "users" s]
  unfold getUsers
  rw [hpair]
  simp only [storeQueryAll, hq, Bool.false_eq_true, if_false, hsc, Bool.false_and,
    Bool.and_eq_true, hm]
  by_cases hcs : f.cacheSetFails <;> simp [cacheSet, hcs]

theorem updateCache_success (f : Faults) (s : SysState)
    (hq : f.storeQueryFails = false) (hsc : f.scanFails = false)
    (hm : f.marshalFails = false) (hcs : f.cacheSetFails = false) :
    updateCache f s =
      { s with storeQueryCount := s.storeQueryCount + 1,
               cacheSetCount := s.cacheSetCount + 1,
               cache := assocInsert "users" (CacheVal.str (marshalUsers s.rows) 300) s.cache } := by
  unfold updateCache
  simp [storeQueryAll, hq, hsc, hm, cacheSet, hcs]

theorem updateCache_preserves (f : Faults) (s : SysState) :
    (updateCache f s).rows = s.rows ∧ (updateCache f s).nextId = s.nextId ∧
    (updateCache f s).storeExecCount = s.storeExecCount := by
  unfold updateCache storeQueryAll cacheSet
  by_cases hq : f.storeQueryFails <;> by_cases hcs : f.cacheSetFails <;>
    simp [hq, hcs] <;> (try split) <;> (try split) <;> simp

@[simp] theorem noFaults_storeQueryFails : noFaults.storeQueryFails = false := rfl
@[simp] theorem noFaults_storeExecFails : noFaults.storeExecFails = false := rfl
@[simp] theorem noFaults_scanFails : noFaults.scanFails = false := rfl
@[simp] theorem noFaults_marshalFails : noFaults.marshalFails = false := rfl
@[simp] theorem noFaults_cacheGetFails : noFaults.cacheGetFails = false := rfl
@[simp] theorem noFaults_cacheSetFails : noFaults.cacheSetFails = false := rfl

/-- C1: for every write request (create, update, or delete) whose store
mutation succeeds (here: executed without injected faults), the handler
synchronously recomputes the full user collection from the store and
overwrites the cache entry under the key "users" with a fresh TTL before
responding, so an immediately following list-users request is a cache hit
serving exactly the mutated collection. -/
theorem c1_write_refresh_synchronous (s : SysState) (u v : User) (uname : String)
    (hu : uname ≠ "") :
    ((createUser noFaults (some u) s).1.status = 201 ∧
      (createUser noFaults (some u) s).2.rows
        = s.rows ++ [{ id := s.nextId, username := u.username, email := u.email }] ∧
      assocLookup "users" (createUser noFaults (some u) s).2.cache
        = some (CacheVal.str (marshalUsers (createUser noFaults (some u) s).2.rows) 300) ∧
      (getUsers noFaults (createUser noFaults (some u) s).2).1
        = jsonOK (marshalUsers (createUser noFaults (some u) s).2.rows)) ∧
    ((updateUser noFaults (some v) s).1.status = 200 ∧
      (updateUser noFaults (some v) s).2.rows
        = s.rows.map (fun r => if r.username = v.username then { r with email := v.email } else r) ∧
      assocLookup "users" (updateUser noFaults (some v) s).2.cache
        = some (CacheVal.str (marshalUsers (updateUser noFaults (some v) s).2.rows) 300) ∧
      (getUsers noFaults (updateUser noFaults (some v) s).2).1
        = jsonOK (marshalUsers (updateUser noFaults (some v) s).2.rows)) ∧
    ((deleteUser noFaults uname s).1.status = 200 ∧
      (deleteUser noFaults uname s).2.rows = s.rows.filter (fun r => r.username != uname) ∧
      assocLookup "users" (deleteUser noFaults uname s).2.cache
        = some (CacheVal.str (marshalUsers (deleteUser noFaults uname s).2.rows) 300) ∧
      (getUsers noFaults (deleteUser noFaults uname s).2).1
        = jsonOK (marshalUsers (deleteUser noFaults uname s).2.rows)) := by
  have hup : ∀ t : SysState, updateCache noFaults t =
      { t with storeQueryCount := t.storeQueryCount + 1,
               cacheSetCount := t.cacheSetCount + 1,
               cache := assocInsert "users" (CacheVal.str (marshalUsers t.rows) 300) t.cache } :=
    fun t => updateCache_success noFaults t rfl rfl rfl rfl
  have hget : ∀ (t : SysState) (p : String),
      assocLookup "users" t.cache = some (CacheVal.str p 300) →
      (getUsers noFaults t).1 = jsonOK p := fun t p h => by
    rw [getUsers_hit noFaults t p 300 rfl h]
  refine ⟨⟨?_, ?_, ?_, ?_⟩, ⟨?_, ?_, ?_, ?_⟩, ⟨?_, ?_, ?_, ?_⟩⟩ <;>
    simp [createUser, updateUser, deleteUser, storeInsert, storeUpdateEmail, storeDelete,
      hu, hup, assocLookup_insert_same] <;>
    exact hget _ _ (assocLookup_insert_same "users" _ _)

/-- Witness for C1 at a concrete input: deleting "ann" from the bootstrap
state succeeds with status 200. -/
theorem c1_write_refresh_synchronous_witness :
    ("ann" : String) ≠ "" ∧ (deleteUser noFaults "ann" initState).1.status = 200 :=
  ⟨by decide,
   (c1_write_refresh_synchronous initState
      { id := 0, username := "ann", email := "a@x.com" }
      { id := 0, username := "ann", email := "b@x.com" } "ann" (by decide)).2.2.1⟩

/-- C2: for every list-users request whose cache probe misses or errors, the
handler queries all rows from the store, serializes them, writes the
serialized payload under "users" with a TTL, and returns exactly that
serialized payload with JSON content type. -/
theorem c2_miss_repopulates (f : Faults) (s : SysState)
    (hq : f.storeQueryFails = false) (hsc : f.scanFails = false)
    (hm : f.marshalFails = false) (hcs : f.cacheSetFails = false)
    (hmiss : (cacheGet f "users" s).1 = none) :
    (getUsers f s).1 = jsonOK (marshalUsers s.rows) ∧
    assocLookup "users" (getUsers f s).2.cache
      = some (CacheVal.str (marshalUsers s.rows) 120) ∧
    (getUsers f s).2.storeQueryCount = s.storeQueryCount + 1 := by
  rw [getUsers_miss f s hq hsc hm hmiss]
  simp [hcs, assocLookup_insert_same]

/-- Witness for C2: a cache miss against the bootstrap state serves the
store's (empty) collection. -/
theorem c2_miss_repopulates_witness :
    (cacheGet noFaults "users" initState).1 = none ∧
    (getUsers noFaults initState).1 = jsonOK (marshalUsers initState.rows) :=
  ⟨by decide,
   (c2_miss_repopulates noFaults initState rfl rfl rfl rfl (by decide)).1⟩

/-- C3: for every list-users request whose cache probe under "users"
succeeds, the handler returns the cached payload verbatim with JSON content
type, performs no store query, and leaves the cache (hence the entry's
recorded expiry) untouched. -/
theorem c3_hit_fast_path (f : Faults) (s : SysState) (payload : String) (ttl : Nat)
    (hcg : f.cacheGetFails = false)
    (hhit : assocLookup "users" s.cache = some (CacheVal.str payload ttl)) :
    (getUsers f s).1 = jsonOK payload ∧
    (getUsers f s).2.cache = s.cache ∧
    (getUsers f s).2.rows = s.rows ∧
    (getUsers f s).2.storeQueryCount = s.storeQueryCount ∧
    (getUsers f s).2.cacheSetCount = s.cacheSetCount := by
  rw [getUsers_hit f s payload ttl hcg hhit]
  simp

/-- Witness for C3: with "users" cached as "null", the hit path serves it. -/
theorem c3_hit_fast_path_witness :
    assocLookup "users"
      ({ initState with cache := [("users", CacheVal.str "null" 120)] } : SysState).cache
      = some (CacheVal.str "null" 120) ∧
    (getUsers noFaults { initState with cache := [("users", CacheVal.str "null" 120)] }).1
      = jsonOK "null" :=
  ⟨by decide,
   (c3_hit_fast_path noFaults { initState with cache := [("users", CacheVal.str "null" 120)] }
      "null" 120 rfl (by decide)).1⟩

/-- C4: for every write request whose store mutation succeeds, any failure
inside the post-write cache refresh (store re-query, row scan, serialization,
or cache set) is swallowed: the write still reports success (201 for create,
200 for update and delete) with the mutation applied in the store. -/
theorem c4_refresh_failure_swallowed (f : Faults) (s : SysState) (u v : User) (uname : String)
    (hexec : f.storeExecFails = false) (hu : uname ≠ "")
    (hfail : f.storeQueryFails = true ∨ f.scanFails = true ∨
             f.marshalFails = true ∨ f.cacheSetFails = true) :
    ((createUser f (some u) s).1.status = 201 ∧
      (createUser f (some u) s).2.rows
        = s.rows ++ [{ id := s.nextId, username := u.username, email := u.email }]) ∧
    ((updateUser f (some v) s).1.status = 200 ∧
      (updateUser f (some v) s).2.rows
        = s.rows.map (fun r => if r.username = v.username then { r with email := v.email } else r)) ∧
    ((deleteUser f uname s).1.status = 200 ∧
      (deleteUser f uname s).2.rows = s.rows.filter (fun r => r.username != uname)) := by
  refine ⟨⟨?_, ?_⟩, ⟨?_, ?_⟩, ⟨?_, ?_⟩⟩ <;>
    simp [createUser, updateUser, deleteUser, storeInsert, storeUpdateEmail, storeDelete,
      hexec, hu, (updateCache_preserves f _).1]

/-- Witness for C4: with a failing cache set, creating "ann" still returns
201. -/
theorem c4_refresh_failure_swallowed_witness :
    ({ noFaults with cacheSetFails := true } : Faults).storeExecFails = false ∧
    (createUser { noFaults with cacheSetFails := true }
      (some { id := 0, username := "ann", email := "a@x.com" }) initState).1.status = 201 :=
  ⟨by decide,
   ((c4_refresh_failure_swallowed { noFaults with cacheSetFails := true } initState
      { id := 0, username := "ann", email := "a@x.com" }
      { id := 0, username := "ann", email := "b@x.com" } "ann"
      (by decide) (by decide) (by decide)).1).1⟩

/-- C5 counterexample: a create request whose JSON body decodes but carries
no username and no email (e.g. an empty object, which decodes to zero-valued
strings) is NOT rejected with a client error: the handler returns 201, the
store insert is executed (one store-exec access), and a row with empty
username and email is inserted. -/
theorem c5_counterexample :
    (createUser noFaults (some { id := 0, username := "", email := "" }) initState).1.status = 201 ∧
    (createUser noFaults (some { id := 0, username := "", email := "" }) initState).1.status ≠ 400 ∧
    (createUser noFaults (some { id := 0, username := "", email := "" }) initState).2.storeExecCount = 1 ∧
    (createUser noFaults (some { id := 0, username := "", email := "" }) initState).2.rows
      = [{ id := 1, username := "", email := "" }] := by decide

/-- C5 amended: only the delete handler validates its required input — a
delete request missing the username query parameter returns 400 with no
store and no cache access; for create and update the only client-error case
is a body that fails to decode (also with no store or cache access), while a
body that decodes with missing username or email proceeds to the store
mutation (the store-exec counter is bumped). -/
theorem c5_amended_only_delete_validates (f : Faults) (s : SysState) :
    deleteUser f "" s = (errResp 400 "Missing username parameter", s) ∧
    createUser f none s = (errResp 400 decodeErrMsg, s) ∧
    updateUser f none s = (errResp 400 decodeErrMsg, s) ∧
    (createUser f (some { id := 0, username := "", email := "" }) s).2.storeExecCount
      = s.storeExecCount + 1 ∧
    (updateUser f (some { id := 0, username := "", email := "" }) s).2.storeExecCount
      = s.storeExecCount + 1 := by
  refine ⟨by simp [deleteUser], by simp [createUser], by simp [updateUser], ?_, ?_⟩ <;>
    by_cases hexec : f.storeExecFails <;>
    simp [createUser, updateUser, storeInsert, storeUpdateEmail, hexec,
      (updateCache_preserves f _).2.2]

/-- C6: on the list-users cache-miss path, if the store query and
serialization succeed but the cache set fails, the handler returns an
internal error (500) instead of the freshly queried data. -/
theorem c6_miss_cacheset_failure_fatal (f : Faults) (s : SysState)
    (hq : f.storeQueryFails = false) (hsc : f.scanFails = false) (hm : f.marshalFails = false)
    (hcs : f.cacheSetFails = true)
    (hmiss : (cacheGet f "users" s).1 = none) :
    (getUsers f s).1 = errResp 500 cacheSetErrMsg ∧
    (getUsers f s).1.status = 500 := by
  rw [getUsers_miss f s hq hsc hm hmiss]
  simp [hcs, errResp]

/-- Witness for C6: a failing cache set turns a miss against the bootstrap
state into a 500. -/
theorem c6_miss_cacheset_failure_fatal_witness :
    (cacheGet { noFaults with cacheSetFails := true } "users" initState).1 = none ∧
    (getUsers { noFaults with cacheSetFails := true } initState).1.status = 500 :=
  ⟨by decide,
   (c6_miss_cacheset_failure_fatal { noFaults with cacheSetFails := true } initState
      rfl rfl rfl rfl (by decide)).2⟩

/-- C7: for every write request whose store mutation fails, the handler
returns an internal error (500), no cache refresh is attempted (the
cache-set counter does not move), and the cache and the rows keep their
pre-write values. -/
theorem c7_store_failure_aborts (f : Faults) (s : SysState) (u v : User) (uname : String)
    (hexec : f.storeExecFails = true) (hu : uname ≠ "") :
    ((createUser f (some u) s).1 = errResp 500 storeExecErrMsg ∧
      (createUser f (some u) s).2.rows = s.rows ∧
      (createUser f (some u) s).2.cache = s.cache ∧
      (createUser f (some u) s).2.cacheSetCount = s.cacheSetCount) ∧
    ((updateUser f (some v) s).1 = errResp 500 storeExecErrMsg ∧
      (updateUser f (some v) s).2.rows = s.rows ∧
      (updateUser f (some v) s).2.cache = s.cache ∧
      (updateUser f (some v) s).2.cacheSetCount = s.cacheSetCount) ∧
    ((deleteUser f uname s).1 = errResp 500 storeExecErrMsg ∧
      (deleteUser f uname s).2.rows = s.rows ∧
      (deleteUser f uname s).2.cache = s.cache ∧
      (deleteUser f uname s).2.cacheSetCount = s.cacheSetCount) := by
  refine ⟨⟨?_, ?_, ?_, ?_⟩, ⟨?_, ?_, ?_, ?_⟩, ⟨?_, ?_, ?_, ?_⟩⟩ <;>
    simp [createUser, updateUser, deleteUser, storeInsert, storeUpdateEmail, storeDelete,
      hexec, hu]

/-- Witness for C7: with a failing store exec, creating "ann" returns the
internal error. -/
theorem c7_store_failure_aborts_witness :
    ({ noFaults with storeExecFails := true } : Faults).storeExecFails = true ∧
    (createUser { noFaults with storeExecFails := true }
      (some { id := 0, username := "ann", email := "a@x.com" }) initState).1
      = errResp 500 storeExecErrMsg :=
  ⟨by decide,
   ((c7_store_failure_aborts { noFaults with storeExecFails := true } initState
      { id := 0, username := "ann", email := "a@x.com" }
      { id := 0, username := "ann", email := "b@x.com" } "ann"
      (by decide) (by decide)).1).1⟩

/-- C8 counterexample: with the user collection empty (the bootstrap state),
a list-users request returns status 200 but its body is the JSON value
"null" (Go marshals the nil slice), not the JSON array "[]". -/
theorem c8_counterexample :
    (getUsers noFaults initState).1.status = 200 ∧
    (getUsers noFaults initState).1.body = "null" ∧
    (getUsers noFaults initState).1.body ≠ "[]" := by decide

/-- C8 amended: when the user collection is empty — on a cache miss over an
empty store, or immediately after a delete leaves the store empty — a
list-users request returns status 200 with the JSON body "null" (the
marshalled nil slice), not "[]". -/
theorem c8_empty_collection_serves_null (s t : SysState) (uname : String)
    (hrows : s.rows = []) (hmiss : (cacheGet noFaults "users" s).1 = none)
    (hu : uname ≠ "") (hafter : t.rows.filter (fun r => r.username != uname) = []) :
    (getUsers noFaults s).1 = jsonOK "null" ∧
    (getUsers noFaults (deleteUser noFaults uname t).2).1 = jsonOK "null" := by
  constructor
  · rw [getUsers_miss noFaults s rfl rfl rfl hmiss]
    simp [hrows, marshalUsers]
  · have hc : assocLookup "users" (deleteUser noFaults uname t).2.cache
        = some (CacheVal.str "null" 300) := by
      simp [deleteUser, storeDelete, hu, updateCache_success, hafter, marshalUsers,
        assocLookup_insert_same]
    rw [getUsers_hit noFaults _ "null" 300 rfl hc]

/-- Witness for C8 amended: the bootstrap state is empty and list-users
serves "null". -/
theorem c8_empty_collection_serves_null_witness :
    initState.rows = [] ∧ (getUsers noFaults initState).1 = jsonOK "null" :=
  ⟨rfl,
   (c8_empty_collection_serves_null initState initState "ann" rfl (by decide)
      (by decide) (by decide)).1⟩

/-- C9 counterexample: the generic set-string operation is NOT independent of
the user-collection cache for every caller-supplied key: setting the key
"users" overwrites the payload a subsequent cache-hit list-users serves. -/
theorem c9_counterexample :
    (getUsers noFaults
      { initState with cache := [("users", CacheVal.str "null" 120)] }).1.body = "null" ∧
    (setString noFaults "users" "garbage"
      { initState with cache := [("users", CacheVal.str "null" 120)] }).1.status = 200 ∧
    (getUsers noFaults
      (setString noFaults "users" "garbage"
        { initState with cache := [("users", CacheVal.str "null" 120)] }).2).1.body
      = "garbage" := by decide

theorem setString_preserves_other (f : Faults) (k v : String) (s : SysState)
    (hk : k ≠ "users") :
    assocLookup "users" (setString f k v s).2.cache = assocLookup "users" s.cache := by
  unfold setString
  split
  · rfl
  · unfold cacheSet
    by_cases hcs : f.cacheSetFails
    · simp [hcs]
    · simp [hcs, assocLookup_insert_other k "users" _ _ hk]

theorem setList_preserves_other (f : Faults) (k : String) (vs : List String) (s : SysState)
    (hk : k ≠ "users") :
    assocLookup "users" (setList f k vs s).2.cache = assocLookup "users" s.cache := by
  unfold setList
  split
  · rfl
  · unfold cachePush
    by_cases hcs : f.cacheSetFails
    · simp [hcs]
    · simp only [hcs, Bool.false_eq_true, if_false]
      cases hl : assocLookup k s.cache with
      | none => simp [assocLookup_insert_other k "users" _ _ hk]
      | some cv => cases cv <;> simp [assocLookup_insert_other k "users" _ _ hk]

theorem setHash_preserves_other (f : Faults) (k fld v : String) (s : SysState)
    (hk : k ≠ "users") :
    assocLookup "users" (setHash f k fld v s).2.cache = assocLookup "users" s.cache := by
  unfold setHash
  split
  · rfl
  · unfold cacheHSet
    by_cases hcs : f.cacheSetFails
    · simp [hcs]
    · simp only [hcs, Bool.false_eq_true, if_false]
      cases hl : assocLookup k s.cache with
      | none => simp [assocLookup_insert_other k "users" _ _ hk]
      | some cv => cases cv <;> simp [assocLookup_insert_other k "users" _ _ hk]

/-- C9 amended: for every caller-supplied key other than "users", the generic
set operations (set-string, set-list, set-hash) leave the payload that a
subsequent cache-hit list-users request serves unchanged; a set-string on the
key "users" itself, by contrast, overwrites that payload. -/
theorem c9_generic_ops_other_keys_independent (f : Faults) (s : SysState)
    (k v fld : String) (vs : List String) (payload : String) (ttl : Nat)
    (hk : k ≠ "users") (hcg : f.cacheGetFails = false)
    (hhit : assocLookup "users" s.cache = some (CacheVal.str payload ttl)) :
    (getUsers f (setString f k v s).2).1 = jsonOK payload ∧
    (getUsers f (setList f k vs s).2).1 = jsonOK payload ∧
    (getUsers f (setHash f k fld v s).2).1 = jsonOK payload := by
  refine ⟨?_, ?_, ?_⟩
  · rw [getUsers_hit f _ payload ttl hcg ((setString_preserves_other f k v s hk).trans hhit)]
  · rw [getUsers_hit f _ payload ttl hcg ((setList_preserves_other f k vs s hk).trans hhit)]
  · rw [getUsers_hit f _ payload ttl hcg ((setHash_preserves_other f k fld v s hk).trans hhit)]

/-- Witness for C9 amended: writing the unrelated key "k1" leaves the cached
"null" payload served by list-users unchanged. -/
theorem c9_generic_ops_other_keys_independent_witness :
    ("k1" : String) ≠ "users" ∧
    (getUsers noFaults
      (setString noFaults "k1" "v1"
        { initState with cache := [("users", CacheVal.str "null" 120)] }).2).1
      = jsonOK "null" :=
  ⟨by decide,
   (c9_generic_ops_other_keys_independent noFaults
      { initState with cache := [("users", CacheVal.str "null" 120)] }
      "k1" "v1" "f1" ["a"] "null" 120 (by decide) rfl (by decide)).1⟩

/-- C10: the TTL attached to the "users" entry depends on which path wrote
it: the read-miss repopulation stores it with a 120-second (2-minute) expiry
while the post-write refresh stores it with a 300-second (5-minute) expiry. -/
theorem c10_ttl_depends_on_path (f : Faults) (s t : SysState)
    (hq : f.storeQueryFails = false) (hsc : f.scanFails = false)
    (hm : f.marshalFails = false) (hcs : f.cacheSetFails = false)
    (hmiss : (cacheGet f "users" s).1 = none) :
    assocLookup "users" (getUsers f s).2.cache
      = some (CacheVal.str (marshalUsers s.rows) 120) ∧
    assocLookup "users" (updateCache f t).cache
      = some (CacheVal.str (marshalUsers t.rows) 300) := by
  constructor
  · rw [getUsers_miss f s hq hsc hm hmiss]
    simp [hcs, assocLookup_insert_same]
  · rw [updateCache_success f t hq hsc hm hcs]
    simp [assocLookup_insert_same]

/-- Witness for C10: from the bootstrap state, the miss path records a
120-second TTL and the write-refresh path a 300-second TTL. -/
theorem c10_ttl_depends_on_path_witness :
    (cacheGet noFaults "users" initState).1 = none ∧
    assocLookup "users" (getUsers noFaults initState).2.cache
      = some (CacheVal.str (marshalUsers initState.rows) 120) ∧
    assocLookup "users" (updateCache noFaults initState).cache
      = some (CacheVal.str (marshalUsers initState.rows) 300) :=
  ⟨by decide,
   (c10_ttl_depends_on_path noFaults initState initState rfl rfl rfl rfl (by decide)).1,
   (c10_ttl_depends_on_path noFaults initState initState rfl rfl rfl rfl (by decide)).2⟩
